import Mathlib

/-!
Verification development for the multi-source paper-search aggregation engine
and its asynchronous task orchestrator.

Python strings are modelled as lists of characters (`Str`), so that every
string operation of the source reduces inside the kernel.  Python `int` is
modelled as `Int`, Python `float` arithmetic as exact rational (`ℚ`) or real
(`ℝ`) arithmetic.  Optional values are `Option`.  Functions that perform
network calls are parametrised by an environment describing the outcome of
each outbound call.
-/

/-- Python strings, modelled as lists of characters. -/
abbrev Str := List Char

/-- Conversion from a Lean string literal to the `Str` model. -/
def str (s : String) : Str := s.toList

/-- Python `str.upper()` (ASCII case mapping). -/
def pyUpper (s : Str) : Str := s.map Char.toUpper

/-- Python `str.lower()` (ASCII case mapping). -/
def pyLower (s : Str) : Str := s.map Char.toLower

/-- Whitespace characters stripped by Python `str.strip()`. -/
def isWS (c : Char) : Bool := c == ' ' || c == '\t' || c == '\n' || c == '\r'

/-- Python `str.strip()`. -/
def pyStrip (s : Str) : Str := ((s.dropWhile isWS).reverse.dropWhile isWS).reverse

/-- Python `s.split(sep)` for a one-character separator. -/
def splitOnChar (c : Char) : Str → List Str
  | [] => [[]]
  | x :: xs =>
    let rest := splitOnChar c xs
    if x == c then [] :: rest
    else match rest with
      | [] => [[x]]
      | r :: rs => (x :: r) :: rs

/-- Python substring test `n in h`. -/
def isSubstring (n h : Str) : Bool :=
  (List.range (h.length + 1)).any fun i => n.isPrefixOf (h.drop i)

/-- Value of a non-empty all-digit string, `none` otherwise (`int(s)` guarded by
a digits regex in the source). -/
def digitsVal : Str → Option Nat
  | [] => none
  | l =>
    if l.all Char.isDigit then
      some (l.foldl (fun a c => 10 * a + (c.toNat - 48)) 0)
    else none

/-- Python truthiness of an optional string (`None` and the empty string are
falsy). -/
def truthyStr : Option Str → Bool
  | none => false
  | some s => !s.isEmpty

/-- First character test, Python `s.startswith(c)` for a one-character probe. -/
def startsWithChar (c : Char) (s : Str) : Bool :=
  match s with
  | [] => false
  | x :: _ => x == c

/-- Last character test, Python `s.endswith(c)` for a one-character probe. -/
def endsWithChar (c : Char) (s : Str) : Bool :=
  match s.getLast? with
  | none => false
  | some x => x == c

/-!  Data model, from schemas.py. -/

/-- Canonical record, from `PaperMetadata` in schemas.py. -/
structure PaperMetadata where
  title : Str
  authors : List Str := []
  first_author_hindex : Option Int := none
  abstract : Option Str := none
  year : Option Int := none
  doi : Option Str := none
  journal : Option Str := none
  url : Option Str := none
  citations : Option Int := none
  influential_citations : Option Int := none
  open_access : Bool := false
  publication_types : List Str := []
  publication_date : Option Str := none
  fields_of_study : List Str := []
deriving DecidableEq

/-- Structured query, from `SearchIntent` in schemas.py. -/
structure SearchIntent where
  any_groups : List (List Str) := []
  enabled_sources : Option (List Str) := some [str "s2"]
  venues : List Str := []
  author : Option Str := none
  date_start : Option Str := none
  date_end : Option Str := none
  must_have_pdf : Bool := false
  publication_types : List Str := []
  open_access : Option Bool := none
  min_influential_citations : Option Int := none
  min_citations : Option Int := none
  max_results : Int := 10
  sort_by : Str := str "publicationDate"
  language : Option Str := none
deriving DecidableEq

/-!  QueryExpander, from search_multi.py lines 65-87. -/

/-- From `_quote_if_needed` in search_multi.py: strip, then wrap a phrase that
contains a space in double quotes unless it is already wrapped. -/
def _quote_if_needed (s0 : Str) : Str :=
  let s := pyStrip s0
  if s.isEmpty then s
  else if s.contains ' ' && !(startsWithChar '"' s && endsWithChar '"' s) then
    '"' :: s ++ ['"']
  else s

/-- Python `itertools.product` over a list of lists (first factor varies
slowest), each combination returned as a list with one element per factor. -/
def pyProduct : List (List Str) → List (List Str)
  | [] => [[]]
  | g :: gs => g.flatMap fun x => (pyProduct gs).map (x :: ·)

/-- The groups that survive cleaning in `_build_query_combinations`: each group
keeps its non-blank phrases (quoted as needed) and empty groups are dropped. -/
def cleanedGroups (groups : List (List Str)) : List (List Str) :=
  (groups.map fun group =>
    (group.filter fun term => !term.isEmpty && !(pyStrip term).isEmpty).map
      _quote_if_needed).filter
    (fun g => !g.isEmpty)

/-- From `_build_query_combinations` in search_multi.py: cartesian product of
the cleaned synonym groups joined with spaces, or the wildcard marker. -/
def _build_query_combinations (intent : SearchIntent) : List Str :=
  let filtered_groups := cleanedGroups intent.any_groups
  if filtered_groups.isEmpty then [str "*"]
  else (pyProduct filtered_groups).map (List.intercalate (str " "))

theorem mem_pyProduct (gs : List (List Str)) (l : List Str) :
    l ∈ pyProduct gs ↔ List.Forall₂ (fun x g => x ∈ g) l gs := by
  induction gs generalizing l with
  | nil =>
    simp only [pyProduct, List.mem_singleton]
    constructor
    · rintro rfl; exact List.Forall₂.nil
    · rintro h; cases h; rfl
  | cons g gs ih =>
    simp only [pyProduct, List.mem_flatMap, List.mem_map]
    constructor
    · rintro ⟨x, hx, l', hl', rfl⟩
      exact List.Forall₂.cons hx ((ih l').mp hl')
    · rintro h
      cases h with
      | cons hx hl => exact ⟨_, hx, _, (ih _).mpr hl, rfl⟩

/-!  Dates.  Python `datetime.date` restricted to years 1..9999 with the
Gregorian leap rule, as used by `_parse_date_any` / `_date_match`
(search_multi.py lines 173-211) and by ranking.py. -/

/-- Gregorian leap-year rule (`calendar.isleap`). -/
def isLeap (y : Int) : Bool := y % 4 == 0 && (y % 100 != 0 || y % 400 == 0)

/-- Month lengths for a common or leap year. -/
def monthLengths (leap : Bool) : List Nat :=
  [31, if leap then 29 else 28, 31, 30, 31, 30, 31, 31, 30, 31, 30, 31]

/-- Number of days of month `m` (1-12) in year `y` (`calendar.monthrange(y, m)[1]`). -/
def daysInMonth (y : Int) (m : Nat) : Nat := (monthLengths (isLeap y)).getD (m - 1) 0

/-- A valid Python `datetime.date`. -/
structure PyDate where
  year : Int
  month : Nat
  day : Nat
deriving DecidableEq

/-- The `datetime.date` constructor: `none` on a ValueError (year outside
1..9999, month outside 1..12, day outside the month). -/
def mkDate (y : Int) (m d : Nat) : Option PyDate :=
  if 1 ≤ y ∧ y ≤ 9999 ∧ 1 ≤ m ∧ m ≤ 12 ∧ 1 ≤ d ∧ d ≤ daysInMonth y m then
    some ⟨y, m, d⟩
  else none

/-- Python date comparison `a < b` (lexicographic on year, month, day). -/
def dateLt (a b : PyDate) : Bool :=
  a.year < b.year ∨ (a.year = b.year ∧
    (a.month < b.month ∨ (a.month = b.month ∧ a.day < b.day)))

/-- Days before month `m` in a year with leap flag `leap`. -/
def daysBeforeMonth (leap : Bool) (m : Nat) : Nat :=
  ((monthLengths leap).take (m - 1)).sum

/-- Python `date.toordinal()`: day number in the proleptic Gregorian calendar,
with 0001-01-01 as day 1. -/
def toOrdinal (d : PyDate) : Int :=
  365 * (d.year - 1) + (d.year - 1) / 4 - (d.year - 1) / 100 + (d.year - 1) / 400 +
    (daysBeforeMonth (isLeap d.year) d.month : Int) + (d.day : Int)

/-- Parse of a date-only ISO string `YYYY-MM-DD` (`datetime.fromisoformat`
followed by `.date()`; time-of-day suffixes are outside this model, the
callers only pass 10-character date strings). -/
def isoParse (s : Str) : Option PyDate :=
  match splitOnChar '-' s with
  | [a, b, c] =>
    if a.length = 4 ∧ b.length = 2 ∧ c.length = 2 then
      match digitsVal a, digitsVal b, digitsVal c with
      | some y, some m, some d => mkDate (y : Int) m d
      | _, _, _ => none
    else none
  | _ => none

/-- From `_parse_date_any` in search_multi.py lines 173-187: a bound string is
read at year, year-month or full-date granularity; `end` selects the last
rather than the first day of the coarse granularities. -/
def _parse_date_any (s : Option Str) («end» : Bool) : Option PyDate :=
  match s with
  | none => none
  | some s0 =>
    if s0.isEmpty then none
    else
      let ss := pyStrip s0
      if ss.length = 4 ∧ (digitsVal ss).isSome then
        match digitsVal ss with
        | some y => if «end» then mkDate (y : Int) 12 31 else mkDate (y : Int) 1 1
        | none => none
      else
        match splitOnChar '-' ss with
        | [a, b] =>
          if a.length = 4 ∧ b.length = 2 then
            match digitsVal a, digitsVal b with
            | some y, some m =>
              if 1 ≤ m ∧ m ≤ 12 then
                if «end» then mkDate (y : Int) m (daysInMonth (y : Int) m)
                else mkDate (y : Int) m 1
              else none
            | _, _ => none
          else none
        | _ => isoParse ss

/-- Effective date of a record: its ISO publication date (first 10 characters)
if parseable, else July 1 of its year.  Shared logic of `_date_match`
(search_multi.py lines 192-202) and `_pub_date_as_date` (ranking.py lines
23-38). -/
def effectiveDate (p : PaperMetadata) : Option PyDate :=
  let fromPd : Option PyDate :=
    match p.publication_date with
    | some pd => if pd.isEmpty then none else isoParse (pd.take 10)
    | none => none
  match fromPd with
  | some d => some d
  | none =>
    match p.year with
    | some y => if y ≠ 0 then mkDate y 7 1 else none
    | none => none

/-- From `_date_match` in search_multi.py lines 189-211. -/
def _date_match (p : PaperMetadata) (ds de : Option Str) : Bool :=
  if !(truthyStr ds || truthyStr de) then true
  else
    match effectiveDate p with
    | none => false
    | some pd =>
      let start := _parse_date_any ds false
      let endd := _parse_date_any de true
      let startOk := match start with
        | some s => !dateLt pd s
        | none => true
      let endOk := match endd with
        | some e => !dateLt e pd
        | none => true
      startOk && endOk

/-!  Client-side filters, from search_multi.py lines 142-244. -/

/-- From `_author_match`: case-insensitive exact or substring match of the
requested author phrase against any author of the record. -/
def _author_match (p : PaperMetadata) (target : Option Str) : Bool :=
  match target with
  | none => true
  | some t0 =>
    if t0.isEmpty then true
    else
      let t := pyLower (pyStrip t0)
      p.authors.any fun a =>
        let al := pyLower a
        al == t || isSubstring t al

/-- From `_norm_token`: uppercase and strip every non-alphanumeric character. -/
def _norm_token (s : Str) : Str := (pyUpper s).filter fun c => c.isUpper || c.isDigit

/-- Venue synonym table from search_multi.py lines 52-60. -/
def VENUE_SYNONYMS : List (Str × List Str) :=
  [ (str "NEURIPS", [str "NEURIPS", str "NIPS",
      str "ADVANCES IN NEURAL INFORMATION PROCESSING SYSTEMS"]),
    (str "ICLR", [str "ICLR", str "INTERNATIONAL CONFERENCE ON LEARNING REPRESENTATIONS"]),
    (str "ICCV", [str "ICCV", str "INTERNATIONAL CONFERENCE ON COMPUTER VISION"]),
    (str "CVPR", [str "CVPR", str "IEEE CONFERENCE ON COMPUTER VISION AND PATTERN RECOGNITION"]),
    (str "EMNLP", [str "EMNLP", str "EMPIRICAL METHODS IN NATURAL LANGUAGE PROCESSING"]),
    (str "ACL", [str "ACL", str "ASSOCIATION FOR COMPUTATIONAL LINGUISTICS"]),
    (str "ICML", [str "ICML", str "INTERNATIONAL CONFERENCE ON MACHINE LEARNING"]) ]

/-- Dictionary lookup `VENUE_SYNONYMS.get(vnorm, default)`. -/
def venueSynonymsGet (vnorm : Str) (dflt : List Str) : List Str :=
  match VENUE_SYNONYMS.find? (fun e => e.1 == vnorm) with
  | some e => e.2
  | none => dflt

/-- From `_venue_match` in search_multi.py lines 155-171. -/
def _venue_match (p : PaperMetadata) (venues : List Str) : Bool :=
  if venues.isEmpty then true
  else
    match p.journal with
    | none => false
    | some j =>
      if j.isEmpty then false
      else
        let pj := _norm_token j
        let vset := venues.flatMap fun v =>
          let vnorm := _norm_token v
          (venueSynonymsGet vnorm [v]).map _norm_token ++ [vnorm]
        vset.contains pj ||
          vset.any fun v => isSubstring v pj || isSubstring pj v

/-- From `_pubtypes_match` in search_multi.py lines 213-223. -/
def _pubtypes_match (p : PaperMetadata) (want : List Str) : Bool :=
  if want.isEmpty then true
  else
    let want_set := (want.filter fun w => !w.isEmpty).map fun w => pyLower (pyStrip w)
    let research_set := [str "journalarticle", str "conference"]
    let types := p.publication_types.map pyLower
    if types.isEmpty then
      want_set.all fun w => research_set.contains w
    else
      want_set.any fun w => types.contains w

/-- From `_min_influential_match` in search_multi.py lines 225-228. -/
def _min_influential_match (p : PaperMetadata) (mc : Option Int) : Bool :=
  match mc with
  | none => true
  | some m => m ≤ (p.influential_citations.getD 0)

/-- From `_why_reject` in search_multi.py lines 230-244: the unified filter,
`true` when the record passes all six predicates.  The diagnostic reason
strings are abstracted to the pass/fail outcome. -/
def passesFilter (p : PaperMetadata) (intent : SearchIntent) : Bool :=
  _author_match p intent.author &&
  _venue_match p intent.venues &&
  _pubtypes_match p intent.publication_types &&
  (!intent.must_have_pdf || p.open_access) &&
  _date_match p intent.date_start intent.date_end &&
  _min_influential_match p intent.min_influential_citations

/-!  Dedup key and the final cross-source dedup pass, from search_multi.py
lines 246-254 and 1230-1237. -/

/-- Collapse every run of whitespace to a single space (`re.sub` with a
whitespace-run pattern); the flag records whether the previous character was
whitespace. -/
def squeezeWSAux : Bool → Str → Str
  | _, [] => []
  | prevWS, c :: cs =>
    if isWS c then
      if prevWS then squeezeWSAux true cs
      else ' ' :: squeezeWSAux true cs
    else c :: squeezeWSAux false cs

/-- Collapse every run of whitespace to a single space. -/
def squeezeWS (s : Str) : Str := squeezeWSAux false s

/-- From `_norm_title`: strip, lowercase, collapse internal whitespace. -/
def _norm_title (t : Str) : Str := squeezeWS (pyLower (pyStrip t))

/-- The derived dedup key.  The three tags mirror the `"doi"` / `"url"` /
`"ty"` tuple tags of the source, so keys from different branches never
compare equal. -/
inductive UKey
  | doi (s : Str)
  | url (s : Str)
  | ty (title : Str) (year : Int)
deriving DecidableEq

/-- From `_unique_key` in search_multi.py lines 249-254: DOI (case-folded)
first, else URL (case-folded), else normalized title with the year (absent
year read as 0 by `int(p.year or 0)`). -/
def _unique_key (p : PaperMetadata) : UKey :=
  if truthyStr p.doi then .doi (pyLower (p.doi.getD []))
  else if truthyStr p.url then .url (pyLower (p.url.getD []))
  else .ty (_norm_title p.title) (p.year.getD 0)

/-- The final cross-source dedup loop of `search_papers` (search_multi.py
lines 1230-1237), with the running `global_final_seen` set. -/
def finalDedupAux (seen : List UKey) : List PaperMetadata → List PaperMetadata
  | [] => []
  | p :: ps =>
    let k := _unique_key p
    if seen.contains k then finalDedupAux seen ps
    else p :: finalDedupAux (k :: seen) ps

/-- The final cross-source dedup pass, started with an empty seen set. -/
def finalDedup (l : List PaperMetadata) : List PaperMetadata := finalDedupAux [] l

/-- Reference form of first-occurrence dedup: keep the head, drop every later
record with the same key, recurse. -/
def keepFirstByKey : List PaperMetadata → List PaperMetadata
  | [] => []
  | p :: ps =>
    p :: keepFirstByKey (ps.filter fun q => _unique_key q ≠ _unique_key p)
termination_by l => l.length
decreasing_by
  exact Nat.lt_succ_of_le (List.length_filter_le _ _)

theorem finalDedupAux_eq_keepFirst (l : List PaperMetadata) :
    ∀ seen : List UKey,
      finalDedupAux seen l =
        keepFirstByKey (l.filter fun p => !(seen.contains (_unique_key p))) := by
  induction l with
  | nil => intro seen; simp [finalDedupAux, keepFirstByKey]
  | cons p ps ih =>
    intro seen
    by_cases hk : seen.contains (_unique_key p) = true
    · rw [List.filter_cons_of_neg (by simpa using hk), ← ih seen]
      show (if seen.contains (_unique_key p) = true then finalDedupAux seen ps
        else p :: finalDedupAux (_unique_key p :: seen) ps) = finalDedupAux seen ps
      rw [if_pos hk]
    · rw [List.filter_cons_of_pos (by simpa using hk), keepFirstByKey, List.filter_filter]
      have hstep : finalDedupAux seen (p :: ps) =
          p :: finalDedupAux (_unique_key p :: seen) ps := by
        show (if seen.contains (_unique_key p) = true then finalDedupAux seen ps
          else p :: finalDedupAux (_unique_key p :: seen) ps) = _
        rw [if_neg hk]
      rw [hstep, ih (_unique_key p :: seen)]
      congr 2
      apply List.filter_congr
      intro q _
      show (!((_unique_key q == _unique_key p) || seen.contains (_unique_key q))) =
        ((decide (_unique_key q ≠ _unique_key p)) && !(seen.contains (_unique_key q)))
      rw [Bool.not_or, decide_not]
      rfl

theorem finalDedup_eq_keepFirst (l : List PaperMetadata) :
    finalDedup l = keepFirstByKey l := by
  rw [finalDedup, finalDedupAux_eq_keepFirst l []]
  congr 1
  simp

/-- Identity relation as the spec words it: records agree under the priority
DOI (case-folded), then URL (case-folded), then whitespace-normalized
lowercase title with the year field. -/
def specSameIdentity (p q : PaperMetadata) : Prop :=
  (truthyStr p.doi = true ∧ truthyStr q.doi = true ∧
    pyLower (p.doi.getD []) = pyLower (q.doi.getD [])) ∨
  (truthyStr p.doi = false ∧ truthyStr q.doi = false ∧
    truthyStr p.url = true ∧ truthyStr q.url = true ∧
    pyLower (p.url.getD []) = pyLower (q.url.getD [])) ∨
  (truthyStr p.doi = false ∧ truthyStr q.doi = false ∧
    truthyStr p.url = false ∧ truthyStr q.url = false ∧
    _norm_title p.title = _norm_title q.title ∧ p.year = q.year)

/-- The identity relation with the amendment forced by the code: an absent
year is read as 0 when the title-and-year branch applies. -/
def amendedSameIdentity (p q : PaperMetadata) : Prop :=
  (truthyStr p.doi = true ∧ truthyStr q.doi = true ∧
    pyLower (p.doi.getD []) = pyLower (q.doi.getD [])) ∨
  (truthyStr p.doi = false ∧ truthyStr q.doi = false ∧
    truthyStr p.url = true ∧ truthyStr q.url = true ∧
    pyLower (p.url.getD []) = pyLower (q.url.getD [])) ∨
  (truthyStr p.doi = false ∧ truthyStr q.doi = false ∧
    truthyStr p.url = false ∧ truthyStr q.url = false ∧
    _norm_title p.title = _norm_title q.title ∧ p.year.getD 0 = q.year.getD 0)

/-!  Rate-limited HTTP discipline, from `_http_get` in search_multi.py lines
101-137.  The network is modelled by a map from the attempt index to the
outcome of that attempt. -/

/-- Outcome of one HTTP attempt: a 200 response carrying a parsed body, a
retryable status (429/500/502/503/504), any other non-200 status, a
connect/read timeout, or an unexpected exception. -/
inductive HttpAttempt (α : Type)
  | ok (body : α)
  | retryableStatus
  | fatalStatus
  | timeout
  | exc
deriving DecidableEq

/-- A parsed S2 bulk-search body: its `total` field and its `data` list. -/
structure S2Response (α : Type) where
  total : Option Int := none
  data : List α := []
deriving DecidableEq

/-- The explicit zero-total sentinel returned instead of raising. -/
def emptySentinel {α : Type} : S2Response α := { total := some 0, data := [] }

/-- The retry loop of `_http_get`: at most 6 attempts, an immediate return on
200 or on a non-retryable status, retries on retryable statuses and
timeouts, retries on unexpected exceptions until the final attempt. -/
def httpGetLoop (env : Nat → HttpAttempt (S2Response α)) : Nat → Nat → S2Response α
  | 0, _ => emptySentinel
  | fuel + 1, attempt =>
    match env attempt with
    | .ok j => j
    | .retryableStatus => httpGetLoop env fuel (attempt + 1)
    | .fatalStatus => emptySentinel
    | .timeout => httpGetLoop env fuel (attempt + 1)
    | .exc =>
      if 5 ≤ attempt then emptySentinel
      else httpGetLoop env fuel (attempt + 1)

/-- From `_http_get` in search_multi.py lines 101-137. -/
def _http_get (env : Nat → HttpAttempt (S2Response α)) : S2Response α :=
  httpGetLoop env 6 0

/-!  OpenAlex adapter, from `_search_openalex_single_query` in search_multi.py
lines 426-506.  The HTTP call is modelled by its outcome: a parsed result
list, or an error for any network/parse failure. -/

/-- The fields of an OpenAlex work record that the adapter reads. -/
structure OAWork where
  author_names : List (Option Str) := []
  host_venue_display_name : Option Str := none
  landing_page_url : Option Str := none
  pdf_url : Option Str := none
  id : Option Str := none
  doi : Option Str := none
  title : Option Str := none
  publication_year : Option Int := none
  cited_by_count : Option Int := none
  is_oa : Bool := false
  type : Option Str := none
  publication_date : Option Str := none
  concept_names : List Str := []
deriving DecidableEq

/-- Python `a or b` on optional strings. -/
def pyOrStr (a b : Option Str) : Option Str := if truthyStr a then a else b

/-- Mapping of one OpenAlex work into a canonical record (search_multi.py
lines 464-491). -/
def oaToPaper (w : OAWork) : PaperMetadata :=
  let authors := w.author_names.filterMap fun o =>
    match o with
    | some s => if s.isEmpty then none else some s
    | none => none
  let doi := match w.doi with
    | some d =>
      if (str "https://doi.org/").isPrefixOf d then some (d.drop 16) else some d
    | none => none
  { title := (w.title.getD []),
    authors := authors,
    abstract := none,
    year := w.publication_year,
    doi := doi,
    journal := w.host_venue_display_name,
    url := pyOrStr (pyOrStr w.landing_page_url w.id) w.pdf_url,
    citations := w.cited_by_count,
    influential_citations := none,
    open_access := w.is_oa,
    publication_types := match w.type with
      | some t => if t.isEmpty then [] else [t]
      | none => [],
    publication_date := w.publication_date,
    fields_of_study := w.concept_names.take 5 }

/-- Page-level dedup against a running seen-key set: keep the records whose
key is new, updating the set. -/
def dedupAgainst (seen : List UKey) : List PaperMetadata → List PaperMetadata × List UKey
  | [] => ([], seen)
  | p :: ps =>
    let k := _unique_key p
    if seen.contains k then dedupAgainst seen ps
    else
      let out := dedupAgainst (k :: seen) ps
      (p :: out.1, out.2)

/-- Per-call statistics returned by every single-query adapter. -/
structure CallStats where
  server_total : Option Int := none
  raw_fetched : Nat := 0
  raw_unique : Nat := 0
  pages : Nat := 0
deriving DecidableEq

/-- From `_search_openalex_single_query`: on any internal failure the call
returns an empty record list and all-zero counts; otherwise the fetched
works are mapped and page-deduped.  The first component of the result is
the record list, then the stats, then the updated seen-key set. -/
def _search_openalex_single_query (fetch : Except Str (List OAWork))
    (oa_seen_keys : List UKey) : List PaperMetadata × CallStats × List UKey :=
  match fetch with
  | .error _ =>
    ([], { server_total := some 0, raw_fetched := 0, raw_unique := 0, pages := 0 }, oa_seen_keys)
  | .ok raw_items =>
    let out := dedupAgainst oa_seen_keys (raw_items.map oaToPaper)
    (out.1,
      { server_total := none, raw_fetched := raw_items.length,
        raw_unique := out.1.length, pages := 1 },
      out.2)

/-!  Aggregator, from `search_papers` in search_multi.py lines 1125-1285. -/

/-- Allowed source identifiers (search_multi.py line 1136). -/
def ALLOWED_SOURCES : List Str :=
  [str "s2", str "openalex", str "crossref", str "arxiv", str "pubmed", str "eupmc"]

/-- From `_normalize_sources` (search_multi.py lines 1138-1160): lowercase and
dedup the requested sources keeping order, drop unknown names, force `s2`
to be present, cap the selection at three sources. -/
def _normalize_sources (srcs0 : Option (List Str)) : List Str :=
  let srcs := match srcs0 with
    | none => [str "s2"]
    | some l => if l.isEmpty then [str "s2"] else l
  let norm := srcs.foldl
    (fun acc x =>
      let k := pyLower (pyStrip x)
      if ALLOWED_SOURCES.contains k && !acc.contains k then acc ++ [k] else acc)
    []
  let norm := if norm.contains (str "s2") then norm else str "s2" :: norm
  let norm := if 3 < norm.length then
      str "s2" :: (norm.filter fun x => x ≠ str "s2").take 2
    else norm
  if norm.isEmpty then [str "s2"] else norm

/-- Per-source accumulated statistics of the aggregation loop. -/
structure SPStats where
  raw_fetched : Nat := 0
  raw_unique : Nat := 0
  after_filter : Nat := 0
  pages : Nat := 0
deriving DecidableEq

/-- The running state of the query-times-source loop: per-source seen-key
sets, per-source kept records, per-source statistics. -/
structure AggState where
  seen : Str → List UKey
  collected : Str → List PaperMetadata
  stats : Str → SPStats

/-- Behaviour of the selected single-query adapters, indexed by source name
and query: the returned records, call statistics and updated seen set, or
an error for a raised exception. -/
abbrev SourceEnv := Str → Str → List UKey → Except Str (List PaperMetadata × CallStats × List UKey)

/-- One `(query, source)` step of the aggregation loop (search_multi.py lines
1202-1223): a raised exception is absorbed as an empty result with zero
counts, the unified filter keeps the passing records, and the statistics
accumulate. -/
def aggStep (env : SourceEnv) (intent : SearchIntent) (query src : Str)
    (st : AggState) : AggState :=
  match env src query (st.seen src) with
  | .error _ => st
  | .ok (raw_items, s, seen2) =>
    let kept := raw_items.filter fun p => passesFilter p intent
    let old := st.stats src
    { seen := Function.update st.seen src seen2,
      collected := Function.update st.collected src (st.collected src ++ kept),
      stats := Function.update st.stats src
        { raw_fetched := old.raw_fetched + s.raw_fetched,
          raw_unique := old.raw_unique + s.raw_unique,
          after_filter := old.after_filter + kept.length,
          pages := old.pages + s.pages } }

/-- Result of `search_papers`: the final deduplicated record list, the
per-source statistics, and the normalized source selection. -/
structure SearchResult where
  collected_final : List PaperMetadata
  per_source_stats : Str → SPStats
  selected_sources : List Str

/-- From `search_papers` in search_multi.py lines 1125-1285: normalize the
selection, expand the queries, skip blank and wildcard queries, run every
remaining query against every selected source absorbing per-source
failures, merge the kept records in selection order, and dedup across
sources keeping first occurrences. -/
def search_papers (env : SourceEnv) (intent : SearchIntent) : SearchResult :=
  let selected_sources := _normalize_sources intent.enabled_sources
  let queries := _build_query_combinations intent
  let active := queries.filter fun q =>
    !(q.isEmpty || (pyStrip q).isEmpty || pyStrip q == str "*")
  let init : AggState := { seen := fun _ => [], collected := fun _ => [], stats := fun _ => {} }
  let final := active.foldl
    (fun st q => selected_sources.foldl (fun st2 src => aggStep env intent q src st2) st)
    init
  let merged := selected_sources.flatMap fun src => final.collected src
  { collected_final := finalDedup merged,
    per_source_stats := final.stats,
    selected_sources := selected_sources }

/-!  Ranker, from ranking.py, with the curated venue set from schemas.py
lines 15-25.  The wall clock of `datetime.now` is an explicit `today`
parameter.  Float arithmetic is modelled exactly: venue scores as rationals,
the importance score as a real number. -/

/-- Curated top-venue set, from `TOP_VENUES` in schemas.py (verbatim,
including the one mixed-case entry). -/
def TOP_VENUES : List Str :=
  [str "NeurIPS", str "NIPS", str "ICLR", str "ICML", str "AAAI", str "IJCAI", str "JMLR",
   str "CVPR", str "ICCV", str "ECCV", str "TPAMI", str "IJCV",
   str "ACL", str "EMNLP", str "NAACL", str "COLING", str "TACL",
   str "SIGIR", str "WWW", str "KDD", str "VLDB", str "SIGMOD", str "ICDE"]

/-- From `_venue_score` in ranking.py lines 17-20: 1.0 when the upper-cased
venue is a member of `TOP_VENUES`, 0.5 for any other non-empty venue, 0.3
when the venue is absent or empty. -/
def _venue_score (v : Option Str) : ℚ :=
  match v with
  | none => 3 / 10
  | some s =>
    if s.isEmpty then 3 / 10
    else if TOP_VENUES.contains (pyUpper s) then 1 else 1 / 2

/-- From `_recency_days` in ranking.py lines 41-46: days from the effective
date to `today`, clamped at 0, `none` when the effective date is
unresolved. -/
def _recency_days (today : PyDate) (p : PaperMetadata) : Option Int :=
  (effectiveDate p).map fun d => max 0 (toOrdinal today - toOrdinal d)

/-- From `_recency_score_by_day` in ranking.py lines 49-54: one-year
half-life decay of the day count, 0 without a date. -/
noncomputable def _recency_score_by_day (today : PyDate) (p : PaperMetadata) : ℝ :=
  match _recency_days today p with
  | none => 0
  | some days => (2 : ℝ) ^ (-(days : ℝ) / 365)

/-- From `importance` in ranking.py lines 57-62. -/
noncomputable def importance (today : PyDate) (p : PaperMetadata) : ℝ :=
  (4 / 10 : ℝ) * _recency_score_by_day today p +
    (3 / 10 : ℝ) * ((_venue_score p.journal : ℚ) : ℝ) +
    (3 / 10 : ℝ) * Real.log (1 + (p.influential_citations.getD 0 : ℝ))

/-- Key type of the freshness sort: date-presence flag, then day count, then
negated influential citations, then negated venue score, compared
lexicographically exactly as Python compares the source tuple. -/
abbrev FreshKey := Lex (Nat × Lex (Int × Lex (Int × ℚ)))

/-- From `_key_freshness` in ranking.py lines 65-78. -/
def _key_freshness (today : PyDate) (p : PaperMetadata) : FreshKey :=
  let rd := _recency_days today p
  let has_date_flag : Nat := if rd.isSome then 0 else 1
  let rd_key : Int := rd.getD (10 ^ 9)
  let infl : Int := -(p.influential_citations.getD 0)
  let ven : ℚ := -(_venue_score p.journal)
  toLex (has_date_flag, toLex (rd_key, toLex (infl, ven)))

/-- From `rank_papers` in ranking.py lines 80-102.  `sorted` with a key and
`reverse=True` is the stable descending sort, modelled by `mergeSort` with
the reversed key comparison. -/
noncomputable def rank_papers (today : PyDate) (papers : List PaperMetadata)
    (mode : Str) : List PaperMetadata :=
  let key := pyLower (if mode.isEmpty then str "relevance" else mode)
  if [str "influentialcitationcount", str "influentialcitations",
      str "citationcount"].contains key then
    papers.mergeSort fun p q =>
      decide ((q.influential_citations.getD 0) ≤ (p.influential_citations.getD 0))
  else if [str "publicationdate", str "freshness", str "date", str "newest"].contains key then
    papers.mergeSort fun p q => decide (_key_freshness today p ≤ _key_freshness today q)
  else if [str "importance", str "relevance"].contains key then
    papers.mergeSort fun p q => decide (importance today q ≤ importance today p)
  else papers

/-!  Task store, from task_store.py.  The task-state classes imported from
schemas.py are not present in the source tree; they are modelled from the
spec (section 3, TaskState and SourceProgress) and from their use in
task_store.py.  Timestamps are modelled as integer seconds; the Chinese
stage-description strings are outside the model. -/

/-- Modelled from the spec: task status, `created`, `parsing`, `searching`,
`ranking`, `completed`, `failed` (terminal: the last two). -/
inductive TaskStatus
  | created
  | parsing
  | searching
  | ranking
  | completed
  | failed
deriving DecidableEq

/-- The `.value` string of a status member. -/
def TaskStatus.value : TaskStatus → Str
  | .created => str "created"
  | .parsing => str "parsing"
  | .searching => str "searching"
  | .ranking => str "ranking"
  | .completed => str "completed"
  | .failed => str "failed"

/-- Modelled from the spec: per-source progress status. -/
inductive SourceStatus
  | pending
  | in_progress
  | completed
  | failed
deriving DecidableEq

/-- Modelled from the spec: per-source progress record. -/
structure SourceProgress where
  status : SourceStatus := .pending
  fetched : Int := 0
  total_estimated : Option Int := none
  errors : List Str := []
deriving DecidableEq

/-- Modelled from the spec: task progress, stage plus ordered per-source map
plus overall percent. -/
structure TaskProgress where
  stage : Str
  sources : List (Str × SourceProgress) := []
  overall_percent : Int := 0
deriving DecidableEq

/-- A timestamped error entry appended by `fail_task`. -/
structure ErrorEntry where
  message : Str
  timestamp : Int
deriving DecidableEq

/-- Modelled from the spec: the stored task record.  The results payload is
abstracted to the final record list. -/
structure TaskState where
  status : TaskStatus
  progress : TaskProgress
  query : Str := []
  results : Option (List PaperMetadata) := none
  errors : List ErrorEntry := []
  created_at : Int := 0
  updated_at : Int := 0
  completed_at : Option Int := none
  expires_at : Option Int := none
deriving DecidableEq

/-- From `_calculate_overall_percent` in task_store.py lines 22-60. -/
def _calculate_overall_percent (stage : Str) (sources : List (Str × SourceProgress)) : Int :=
  if stage == str "created" then 0
  else if stage == str "parsing" then 25
  else if stage == str "searching" then
    if sources.isEmpty then 25
    else
      let total_sources := sources.length
      let completed := (sources.filter fun e => e.2.status == SourceStatus.completed).length
      25 + Int.floor ((completed : ℚ) / (total_sources : ℚ) * 50)
  else if stage == str "ranking" then 75
  else if stage == str "completed" then 100
  else if stage == str "failed" then 0
  else 0

/-- From `create_task` in task_store.py lines 120-155. -/
def create_task (now : Int) (query : Str) : TaskState :=
  { status := .created,
    progress := { stage := str "created", sources := [], overall_percent := 0 },
    query := query, results := none, errors := [],
    created_at := now, updated_at := now, completed_at := none, expires_at := none }

/-- From `update_task_status` in task_store.py lines 172-198: set the status,
mirror it into the stage, recompute the percent. -/
def update_task_status (now : Int) (status : TaskStatus) (t : TaskState) : TaskState :=
  let stage := status.value
  { t with
    status := status,
    updated_at := now,
    progress := { t.progress with
      stage := stage,
      overall_percent := _calculate_overall_percent stage t.progress.sources } }

/-- Ordered-dict update of the per-source map used by
`update_source_progress`: overwrite in place, or append a new entry. -/
def sourcesUpdate (sources : List (Str × SourceProgress)) (source : Str)
    (f : SourceProgress → SourceProgress) : List (Str × SourceProgress) :=
  if sources.any fun e => e.1 == source then
    sources.map fun e => if e.1 == source then (e.1, f e.2) else e
  else sources ++ [(source, f {})]

/-- From `update_source_progress` in task_store.py lines 201-249. -/
def update_source_progress (now : Int) (source : Str) (status : SourceStatus)
    (fetched : Int) (total : Option Int) (errors : List Str) (t : TaskState) : TaskState :=
  let sources := sourcesUpdate t.progress.sources source fun sp =>
    { status := status, fetched := fetched, total_estimated := total,
      errors := if errors.isEmpty then sp.errors else errors }
  { t with
    updated_at := now,
    progress := { t.progress with
      sources := sources,
      overall_percent := _calculate_overall_percent t.progress.stage sources } }

/-- From `complete_task` in task_store.py lines 252-275: terminal success,
percent forced to 100, results stored, 30-minute TTL. -/
def complete_task (now : Int) (results : List PaperMetadata) (t : TaskState) : TaskState :=
  { t with
    status := .completed,
    progress := { t.progress with stage := str "completed", overall_percent := 100 },
    results := some results,
    updated_at := now, completed_at := some now, expires_at := some (now + 1800) }

/-- From `fail_task` in task_store.py lines 278-303: terminal failure, a
timestamped error appended, 30-minute TTL.  The stored `overall_percent`
is left untouched. -/
def fail_task (now : Int) (error : Str) (t : TaskState) : TaskState :=
  { t with
    status := .failed,
    progress := { t.progress with stage := str "failed" },
    errors := t.errors ++ [{ message := error, timestamp := now }],
    updated_at := now, completed_at := some now, expires_at := some (now + 1800) }

/-!  Task executor, from task_executor.py.  `config.MAX_RESULTS_LIMIT` is not
present in the source tree; the spec only requires a configured ceiling, so
the limit is a parameter.  The call of `search_papers` at
task_executor.py line 83 passes the keyword argument `progress_callback`;
CPython raises TypeError when a keyword argument does not name a parameter
of the callee, which the model captures through the callee parameter list. -/

/-- The parameter list of `def search_papers(intent)` (search_multi.py line
1125). -/
def searchPapersParams : List Str := [str "intent"]

/-- The keyword arguments of the `search_papers(...)` call in
task_executor.py line 83. -/
def executorSearchKeywords : List Str := [str "progress_callback"]

/-- CPython call semantics: every keyword argument must name a parameter of
the callee, otherwise the call raises TypeError. -/
def pyKeywordsAccepted (params kwargs : List Str) : Bool :=
  kwargs.all fun k => params.contains k

/-- From `execute_search_task` in task_executor.py lines 20-143: parse, then
validate the result count against the configured ceiling, then search, then
rank and truncate, completing or failing the task at each stage boundary. -/
noncomputable def execute_search_task (env : SourceEnv) (today : PyDate) (limit : Int)
    (now : Int) (parse : Except Str SearchIntent) (t0 : TaskState) : TaskState :=
  let t1 := update_task_status now .parsing t0
  match parse with
  | .error e => fail_task now (str "Failed to parse query: " ++ e) t1
  | .ok intent =>
    if limit < intent.max_results then
      fail_task now (str "max_results exceeds limit") t1
    else
      let t2 := update_task_status now .searching t1
      if pyKeywordsAccepted searchPapersParams executorSearchKeywords then
        let res := search_papers env intent
        let t3 := update_task_status now .ranking t2
        let papers_final :=
          (rank_papers today res.collected_final intent.sort_by).take intent.max_results.toNat
        complete_task now papers_final t3
      else
        fail_task now (str "Search failed: unexpected keyword argument progress_callback") t2

/-!  Claim theorems. -/

/-- C4: query expansion drops empty groups and empty phrases, double-quotes
exactly the multi-word phrases (single words stay unquoted), returns the
cartesian product with one phrase per surviving group joined by spaces — in
particular two groups a|b and c yield exactly the queries a c and b c — and
returns the single wildcard marker when no groups survive. -/
theorem C4_query_expansion (intent : SearchIntent) :
    (cleanedGroups intent.any_groups = [] →
      _build_query_combinations intent = [str "*"]) ∧
    (∀ q : Str, q ∈ _build_query_combinations intent ↔
      ((cleanedGroups intent.any_groups = [] ∧ q = str "*") ∨
       (cleanedGroups intent.any_groups ≠ [] ∧
        ∃ choice : List Str,
          List.Forall₂ (fun x g => x ∈ g) choice (cleanedGroups intent.any_groups) ∧
          q = List.intercalate (str " ") choice))) ∧
    (∀ s : Str, (pyStrip s).contains ' ' = true →
      startsWithChar '"' (_quote_if_needed s) = true ∧
      endsWithChar '"' (_quote_if_needed s) = true) ∧
    (∀ s : Str, (pyStrip s).contains ' ' = false → _quote_if_needed s = pyStrip s) ∧
    _build_query_combinations { any_groups := [[str "a", str "b"], [str "c"]] } =
      [str "a c", str "b c"] := by
  refine ⟨?_, ?_, ?_, ?_, by decide⟩
  · intro h
    simp [_build_query_combinations, h]
  · intro q
    by_cases h : cleanedGroups intent.any_groups = []
    · simp [_build_query_combinations, h, eq_comm]
    · have hne : (cleanedGroups intent.any_groups).isEmpty = false := by
        simpa [List.isEmpty_iff] using h
      simp only [_build_query_combinations, hne, Bool.false_eq_true, if_false,
        List.mem_map, h, false_and, false_or, ne_eq, not_false_iff, true_and]
      constructor
      · rintro ⟨l, hl, rfl⟩
        exact ⟨l, (mem_pyProduct _ _).mp hl, rfl⟩
      · rintro ⟨l, hl, rfl⟩
        exact ⟨l, (mem_pyProduct _ _).mpr hl, rfl⟩
  · intro s hsp
    have hne : (pyStrip s).isEmpty = false := by
      cases hstrip : pyStrip s with
      | nil => rw [hstrip] at hsp; simp [List.contains] at hsp
      | cons a l => simp
    by_cases hq : (startsWithChar '"' (pyStrip s) && endsWithChar '"' (pyStrip s)) = true
    · have hstart : startsWithChar '"' (pyStrip s) = true := by
        exact (Bool.and_eq_true .. ▸ hq).1
      have hend : endsWithChar '"' (pyStrip s) = true := by
        exact (Bool.and_eq_true .. ▸ hq).2
      have : _quote_if_needed s = pyStrip s := by
        simp only [_quote_if_needed, hne, Bool.false_eq_true, if_false, hsp, hq,
          Bool.not_true, Bool.and_false]
      rw [this]
      exact ⟨hstart, hend⟩
    · have : _quote_if_needed s = '"' :: pyStrip s ++ ['"'] := by
        simp only [_quote_if_needed, hne, Bool.false_eq_true, if_false, hsp,
          Bool.not_eq_true', Bool.and_true]
        rw [if_pos]
        simp only [hq, Bool.not_false]
        rfl
      rw [this]
      constructor
      · rfl
      · have h2 : (('"' :: pyStrip s) ++ ['"']).getLast? = some '"' := by
          rw [List.getLast?_concat]
        simp only [endsWithChar]
        rw [h2]
        rfl
  · intro s hsp
    simp only [_quote_if_needed, hsp, Bool.false_and, Bool.and_false]
    split
    · next heq => simp [List.isEmpty_iff] at heq; simp [heq]
    · rfl

/-- Witness for C4: the flagship expansion, a quoted multi-word phrase, an
unquoted single word, and the wildcard fallback, all at concrete inputs. -/
theorem C4_query_expansion_witness :
    _build_query_combinations { any_groups := [[str "a", str "b"], [str "c"]] } =
      [str "a c", str "b c"] ∧
    startsWithChar '"' (_quote_if_needed (str "deep learning")) = true ∧
    _quote_if_needed (str "deep") = pyStrip (str "deep") ∧
    _build_query_combinations { any_groups := [[str " "], []] } = [str "*"] :=
  ⟨(C4_query_expansion { any_groups := [[str "a", str "b"], [str "c"]] }).2.2.2.2,
   ((C4_query_expansion {}).2.2.1 (str "deep learning") (by decide)).1,
   (C4_query_expansion {}).2.2.2.1 (str "deep") (by decide),
   (C4_query_expansion { any_groups := [[str " "], []] }).1 (by decide)⟩

/-- C3 counterexample: two records with no DOI and no URL and equal
normalized titles, one with no year field and one with year 0, receive the
same dedup key although their year fields differ, so equal keys do not imply
agreement on the year as claimed. -/
theorem C3_counterexample :
    _unique_key { title := str "t" } =
      _unique_key { title := str "t", year := some 0 } ∧
    ¬ specSameIdentity { title := str "t" } { title := str "t", year := some 0 } := by
  constructor
  · decide
  · intro h
    rcases h with ⟨h1, _⟩ | ⟨_, _, h1, _⟩ | ⟨_, _, _, _, _, hy⟩
    · exact absurd h1 (by decide)
    · exact absurd h1 (by decide)
    · exact absurd hy (by decide)

/-- C3 (amended): two records receive the same dedup key exactly when they
agree under the priority DOI (case-folded), then URL (case-folded), then
whitespace-normalized lowercase title together with the year, an absent
year read as 0; and the final cross-source dedup pass of `search_papers`
keeps exactly the first occurrence of each key in the merged list,
preserving first-seen order. -/
theorem C3_dedup_key_and_final_pass :
    (∀ p q : PaperMetadata, _unique_key p = _unique_key q ↔ amendedSameIdentity p q) ∧
    (∀ l : List PaperMetadata, finalDedup l = keepFirstByKey l) := by
  constructor
  · intro p q
    unfold _unique_key amendedSameIdentity
    by_cases hpd : truthyStr p.doi = true <;> by_cases hqd : truthyStr q.doi = true <;>
      by_cases hpu : truthyStr p.url = true <;> by_cases hqu : truthyStr q.url = true <;>
        simp [hpd, hqd, hpu, hqu, Bool.not_eq_true]
  · exact finalDedup_eq_keepFirst

/-- Helper: the date constructor succeeds on in-range components. -/
theorem mkDate_valid (y : Int) (m d : Nat) (h1 : 1 ≤ y) (h2 : y ≤ 9999)
    (h3 : 1 ≤ m) (h4 : m ≤ 12) (h5 : 1 ≤ d) (h6 : d ≤ daysInMonth y m) :
    mkDate y m d = some ⟨y, m, d⟩ := by
  rw [mkDate, if_pos ⟨h1, h2, h3, h4, h5, h6⟩]

/-- Helper: `splitOnChar` always returns at least one part. -/
theorem splitOnChar_ne_nil (c : Char) (s : Str) : splitOnChar c s ≠ [] := by
  cases s with
  | nil => simp [splitOnChar]
  | cons x xs =>
    rw [splitOnChar]
    by_cases hx : (x == c) = true
    · rw [if_pos hx]; simp
    · rw [if_neg hx]
      cases splitOnChar c xs <;> simp

/-- Joining parts with a separator character, the inverse of `splitOnChar`. -/
def joinWith (c : Char) : List Str → Str
  | [] => []
  | [p] => p
  | p :: q :: ps => p ++ c :: joinWith c (q :: ps)

/-- Helper: joining the parts of `splitOnChar` restores the string, so the
shape of the parts determines the shape of the input. -/
theorem joinWith_splitOnChar (c : Char) (s : Str) :
    joinWith c (splitOnChar c s) = s := by
  induction s with
  | nil => rfl
  | cons x xs ih =>
    rw [splitOnChar]
    by_cases hx : (x == c) = true
    · rw [if_pos hx]
      cases hrest : splitOnChar c xs with
      | nil => exact absurd hrest (splitOnChar_ne_nil c xs)
      | cons r rs =>
        rw [hrest] at ih
        have hxc : x = c := eq_of_beq hx
        rw [joinWith, List.nil_append, ih, hxc]
    · rw [if_neg hx]
      cases hrest : splitOnChar c xs with
      | nil => exact absurd hrest (splitOnChar_ne_nil c xs)
      | cons r rs =>
        rw [hrest] at ih
        cases rs with
        | nil =>
          rw [joinWith] at ih
          rw [joinWith, ih]
        | cons q qs =>
          rw [joinWith] at ih
          rw [joinWith, ← ih, List.cons_append]

/-- Helper: every month between 1 and 12 has at least one day, in common and
leap years alike. -/
theorem daysInMonth_pos (y : Int) (m : Nat) (h1 : 1 ≤ m) (h2 : m ≤ 12) :
    1 ≤ daysInMonth y m := by
  cases hl : isLeap y <;> rw [daysInMonth, hl] <;> interval_cases m <;> decide

/-- C6: with neither bound set every record passes the date filter; with a
date constraint present, a record passes exactly when its effective date
resolves (explicit ISO publication date, else July 1 of its year, else
unresolved and the record fails) and lies within the parsed bounds; a
4-digit year bound parses to January 1 on the start side and December 31 on
the end side, a year-month bound to the first and last day of that month,
and a full-date bound to that exact day — each granularity stated for every
bound string of its shape. -/
theorem C6_date_filter :
    (∀ (p : PaperMetadata) (ds de : Option Str),
      truthyStr ds = false → truthyStr de = false → _date_match p ds de = true) ∧
    (∀ (p : PaperMetadata) (ds de : Option Str),
      truthyStr ds = true ∨ truthyStr de = true →
      (_date_match p ds de = true ↔
        ∃ d : PyDate, effectiveDate p = some d ∧
          (∀ s, _parse_date_any ds false = some s → dateLt d s = false) ∧
          (∀ e, _parse_date_any de true = some e → dateLt e d = false))) ∧
    (∀ s0 : Str, ∀ y : Nat,
      (pyStrip s0).length = 4 → digitsVal (pyStrip s0) = some y →
      1 ≤ y → y ≤ 9999 →
      _parse_date_any (some s0) false = some ⟨(y : Int), 1, 1⟩ ∧
      _parse_date_any (some s0) true = some ⟨(y : Int), 12, 31⟩) ∧
    (∀ s0 a b : Str, ∀ y m : Nat,
      splitOnChar '-' (pyStrip s0) = [a, b] →
      a.length = 4 → b.length = 2 →
      digitsVal a = some y → digitsVal b = some m →
      1 ≤ m → m ≤ 12 → 1 ≤ y → y ≤ 9999 →
      _parse_date_any (some s0) false = some ⟨(y : Int), m, 1⟩ ∧
      _parse_date_any (some s0) true = some ⟨(y : Int), m, daysInMonth (y : Int) m⟩) ∧
    (∀ s0 a b c : Str, ∀ y m d : Nat,
      splitOnChar '-' (pyStrip s0) = [a, b, c] →
      a.length = 4 → b.length = 2 → c.length = 2 →
      digitsVal a = some y → digitsVal b = some m → digitsVal c = some d →
      1 ≤ m → m ≤ 12 → 1 ≤ d → d ≤ daysInMonth (y : Int) m → 1 ≤ y → y ≤ 9999 →
      ∀ e : Bool, _parse_date_any (some s0) e = some ⟨(y : Int), m, d⟩) ∧
    (∀ q : PaperMetadata, ∀ y : Nat,
      truthyStr q.publication_date = false → q.year = some (y : Int) →
      1 ≤ y → y ≤ 9999 →
      effectiveDate q = some ⟨(y : Int), 7, 1⟩) := by
  refine ⟨?_, ?_, ?_, ?_, ?_, ?_⟩
  · intro p ds de h1 h2
    rw [_date_match]
    simp [h1, h2]
  · intro p ds de h
    have hcond : (!(truthyStr ds || truthyStr de)) = false := by
      rcases h with h | h <;> simp [h]
    rw [_date_match]
    rw [hcond]
    simp only [Bool.false_eq_true, if_false]
    cases heff : effectiveDate p with
    | none =>
      simp only [heff]
      constructor
      · intro hfalse; exact absurd hfalse (by decide)
      · rintro ⟨d, hd, -⟩; exact absurd hd (by simp)
    | some pd =>
      simp only [heff, Option.some.injEq]
      constructor
      · intro hb
        refine ⟨pd, rfl, ?_, ?_⟩
        · intro s hs
          rw [hs] at hb
          by_contra hcon
          rw [Bool.not_eq_false] at hcon
          simp [hcon] at hb
        · intro e he
          rw [he] at hb
          by_contra hcon
          rw [Bool.not_eq_false] at hcon
          simp [hcon] at hb
      · rintro ⟨d, hd, hs, he⟩
        cases hd
        have h1 : (match _parse_date_any ds false with
            | some s => !dateLt pd s
            | none => true) = true := by
          cases hps : _parse_date_any ds false with
          | none => rfl
          | some s => simpa using hs s hps
        have h2 : (match _parse_date_any de true with
            | some e => !dateLt e pd
            | none => true) = true := by
          cases hpe : _parse_date_any de true with
          | none => rfl
          | some e => simpa using he e hpe
        rw [h1, h2]
        rfl
  · intro s0 y hlen hval hy1 hy2
    have hne : s0.isEmpty = false := by
      cases hs : s0 with
      | nil => rw [hs] at hlen; simp [pyStrip] at hlen
      | cons a l => simp
    have hbranch : ((pyStrip s0).length = 4 ∧ (digitsVal (pyStrip s0)).isSome) := by
      exact ⟨hlen, by rw [hval]; rfl⟩
    have hmk1 : mkDate (y : Int) 1 1 = some ⟨(y : Int), 1, 1⟩ :=
      mkDate_valid _ _ _ (by omega) (by omega) (by omega) (by omega) (by omega)
        (by rw [show daysInMonth (y : Int) 1 = 31 from rfl]; omega)
    have hmk12 : mkDate (y : Int) 12 31 = some ⟨(y : Int), 12, 31⟩ :=
      mkDate_valid _ _ _ (by omega) (by omega) (by omega) (by omega) (by omega)
        (by rw [show daysInMonth (y : Int) 12 = 31 from rfl])
    constructor
    · rw [_parse_date_any, if_neg (by simp [hne]), if_pos hbranch, hval]
      simp [hmk1]
    · rw [_parse_date_any, if_neg (by simp [hne]), if_pos hbranch, hval]
      simp [hmk12]
  · intro s0 a b y m hsplit hla hlb hdva hdvb hm1 hm2 hy1 hy2
    have hjoin : pyStrip s0 = a ++ '-' :: b := by
      rw [← joinWith_splitOnChar '-' (pyStrip s0), hsplit]
      rfl
    have hne0 : s0.isEmpty = false := by
      cases hs0 : s0 with
      | cons x l => rfl
      | nil =>
        exfalso
        rw [hs0] at hjoin
        exact absurd hjoin (by simp [pyStrip])
    have hlen4 : ¬((pyStrip s0).length = 4 ∧ (digitsVal (pyStrip s0)).isSome = true) := by
      rintro ⟨hc, -⟩
      rw [hjoin] at hc
      simp only [List.length_append, List.length_cons, hla, hlb] at hc
      omega
    have hmkA : mkDate (y : Int) m 1 = some ⟨(y : Int), m, 1⟩ :=
      mkDate_valid _ _ _ (by omega) (by omega) hm1 hm2 (by omega)
        (daysInMonth_pos (y : Int) m hm1 hm2)
    have hmkB : mkDate (y : Int) m (daysInMonth (y : Int) m) =
        some ⟨(y : Int), m, daysInMonth (y : Int) m⟩ :=
      mkDate_valid _ _ _ (by omega) (by omega) hm1 hm2
        (daysInMonth_pos (y : Int) m hm1 hm2) (Nat.le_refl _)
    constructor
    · rw [_parse_date_any, if_neg (by simp [hne0]), if_neg hlen4, hsplit]
      simp [hla, hlb, hdva, hdvb, hm1, hm2, hmkA]
    · rw [_parse_date_any, if_neg (by simp [hne0]), if_neg hlen4, hsplit]
      simp [hla, hlb, hdva, hdvb, hm1, hm2, hmkB]
  · intro s0 a b c y m d hsplit hla hlb hlc hdva hdvb hdvc hm1 hm2 hd1 hd2 hy1 hy2 e
    have hjoin : pyStrip s0 = a ++ '-' :: (b ++ '-' :: c) := by
      rw [← joinWith_splitOnChar '-' (pyStrip s0), hsplit]
      rfl
    have hne0 : s0.isEmpty = false := by
      cases hs0 : s0 with
      | cons x l => rfl
      | nil =>
        exfalso
        rw [hs0] at hjoin
        exact absurd hjoin (by simp [pyStrip])
    have hlen4 : ¬((pyStrip s0).length = 4 ∧ (digitsVal (pyStrip s0)).isSome = true) := by
      rintro ⟨hc, -⟩
      rw [hjoin] at hc
      simp only [List.length_append, List.length_cons, hla, hlb, hlc] at hc
      omega
    have hmk : mkDate (y : Int) m d = some ⟨(y : Int), m, d⟩ :=
      mkDate_valid _ _ _ (by omega) (by omega) hm1 hm2 hd1 hd2
    rw [_parse_date_any, if_neg (by simp [hne0]), if_neg hlen4, hsplit]
    show isoParse (pyStrip s0) = some ⟨(y : Int), m, d⟩
    rw [isoParse, hsplit]
    simp [hla, hlb, hlc, hdva, hdvb, hdvc, hmk]
  · intro q y hpd hyq hy1 hy2
    have h1 : (match q.publication_date with
        | some pd => if pd.isEmpty then none else isoParse (pd.take 10)
        | none => none) = (none : Option PyDate) := by
      cases hq : q.publication_date with
      | none => rfl
      | some s =>
        rw [hq] at hpd
        have hsnil : s = [] := by simpa [truthyStr] using hpd
        subst hsnil
        rfl
    have hne : ((y : Int) ≠ 0) := by omega
    have hmk : mkDate (y : Int) 7 1 = some ⟨(y : Int), 7, 1⟩ :=
      mkDate_valid _ _ _ (by omega) (by omega) (by omega) (by omega) (by omega)
        (by rw [show daysInMonth (y : Int) 7 = 31 from rfl]; omega)
    simp only [effectiveDate, h1, hyq, hmk]
    rw [if_pos hne]

/-- Witness for C6: every clause with a hypothesis exercised at a concrete
input — no bounds set passes an arbitrary record, a 2020 record passes the
2019..2021 window, a year-month bound resolves to the last day of a plain
February, and a full-date bound on leap day 2020-02-29 resolves to itself. -/
theorem C6_date_filter_witness :
    _date_match { title := str "t", year := some 1999 } none (some []) = true ∧
    (∃ d : PyDate,
      effectiveDate { title := str "t", year := some 2020 } = some d ∧
      (∀ s, _parse_date_any (some (str "2019")) false = some s →
        dateLt d s = false) ∧
      (∀ e, _parse_date_any (some (str "2021")) true = some e →
        dateLt e d = false)) ∧
    _parse_date_any (some (str "2021-02")) true = some ⟨2021, 2, 28⟩ ∧
    _parse_date_any (some (str "2020-02-29")) false = some ⟨2020, 2, 29⟩ :=
  ⟨C6_date_filter.1 { title := str "t", year := some 1999 } none (some []) rfl rfl,
   (C6_date_filter.2.1 { title := str "t", year := some 2020 } (some (str "2019"))
      (some (str "2021")) (Or.inl (by decide))).mp (by decide),
   (by decide : daysInMonth (2021 : Int) 2 = 28) ▸
     (C6_date_filter.2.2.2.1 (str "2021-02") (str "2021") (str "02") 2021 2
      (by decide) (by decide) (by decide) (by decide) (by decide)
      (by decide) (by decide) (by decide) (by decide)).2,
   C6_date_filter.2.2.2.2.1 (str "2020-02-29") (str "2020") (str "02") (str "29")
     2020 2 29 (by decide) (by decide) (by decide) (by decide) (by decide)
     (by decide) (by decide) (by decide) (by decide) (by decide) (by decide)
     (by decide) (by decide) false⟩

/-- C7: for a non-empty requested publication-type list of clean tokens
(non-blank, no surrounding whitespace, as the controlled vocabulary of the
intent produces), a record with type metadata passes exactly when the
case-folded requested set intersects its case-folded type set, a record
with no type metadata passes exactly when every requested type case-folds
into the research subset journalarticle/conference, and in particular a
requested Review against a record without type metadata fails. -/
theorem C7_pubtypes_filter (p : PaperMetadata) (want : List Str)
    (hne : want ≠ [])
    (hclean : ∀ w ∈ want, pyStrip w = w ∧ w ≠ []) :
    (_pubtypes_match p want = true ↔
      (if p.publication_types = [] then
        ∀ w ∈ want, pyLower w ∈ [str "journalarticle", str "conference"]
      else
        ∃ w ∈ want, pyLower w ∈ p.publication_types.map pyLower)) ∧
    (∀ q : PaperMetadata, q.publication_types = [] →
      _pubtypes_match q [str "Review"] = false) := by
  constructor
  · have hwantne : want.isEmpty = false := by
      cases want with
      | nil => exact absurd rfl hne
      | cons a l => rfl
    have hfilter : (want.filter fun w => !w.isEmpty) = want := by
      apply List.filter_eq_self.mpr
      intro w hw
      have := (hclean w hw).2
      simpa using this
    have hmapped : ((want.filter fun w => !w.isEmpty).map fun w => pyLower (pyStrip w)) =
        want.map pyLower := by
      rw [hfilter]
      apply List.map_congr_left
      intro w hw
      rw [(hclean w hw).1]
    rw [_pubtypes_match]
    rw [if_neg (by simp [hwantne])]
    rw [hmapped]
    by_cases hp : p.publication_types = []
    · have : (p.publication_types.map pyLower).isEmpty = true := by simp [hp]
      rw [if_pos this, if_pos hp]
      simp [List.all_eq_true]
    · have : (p.publication_types.map pyLower).isEmpty = false := by
        simpa [List.isEmpty_iff] using hp
      rw [if_neg (by simp [this]), if_neg hp]
      simp [List.any_eq_true]
  · intro q hq
    rw [_pubtypes_match]
    rw [if_neg (by simp)]
    have : (q.publication_types.map pyLower).isEmpty = true := by simp [hq]
    rw [if_pos this]
    decide

/-- Witness for C7: a Review request against a record carrying the Review
type passes, and against a record with no type metadata fails; both
hypotheses are discharged at the concrete inputs. -/
theorem C7_pubtypes_filter_witness :
    (_pubtypes_match { title := str "t", publication_types := [str "Review"] }
      [str "review"] = true ↔
      (if ([str "Review"] : List Str) = [] then
        ∀ w ∈ [str "review"], pyLower w ∈ [str "journalarticle", str "conference"]
      else
        ∃ w ∈ [str "review"],
          pyLower w ∈ ([str "Review"] : List Str).map pyLower)) ∧
    _pubtypes_match { title := str "t" } [str "Review"] = false :=
  ⟨(C7_pubtypes_filter { title := str "t", publication_types := [str "Review"] }
      [str "review"] (by decide) (by decide)).1,
   (C7_pubtypes_filter { title := str "x", publication_types := [str "Review"] }
      [str "review"] (by decide) (by decide)).2 { title := str "t" } rfl⟩

/-- C9: evaluation at the failing input of the claim.  The curated set
contains the name NeurIPS, yet a record whose venue string is exactly
NeurIPS scores 0.5, because the membership probe upper-cases the venue
while the curated set stores this one entry in mixed case; an absent venue
scores 0.3, an uncurated venue scores 0.5, and an all-uppercase curated
name such as NIPS scores 1.0. -/
theorem C9_venue_score_at_failing_input :
    str "NeurIPS" ∈ TOP_VENUES ∧
    _venue_score (some (str "NeurIPS")) = 1 / 2 ∧
    _venue_score (some (str "NIPS")) = 1 ∧
    _venue_score (some (str "Nature")) = 1 / 2 ∧
    _venue_score none = 3 / 10 := by
  refine ⟨by decide, ?_, ?_, ?_, rfl⟩
  · rw [_venue_score]
    rw [if_neg (by decide), if_neg (by decide)]
  · rw [_venue_score]
    rw [if_neg (by decide), if_pos (by decide)]
  · rw [_venue_score]
    rw [if_neg (by decide), if_neg (by decide)]

/-- C10: holding the effective date (hence the recency score) and the venue
score fixed, the importance score is monotonically non-decreasing in the
influential-citation count, an unset count read as 0. -/
theorem C10_importance_monotone (today : PyDate) (p q : PaperMetadata)
    (hdate : effectiveDate p = effectiveDate q)
    (hven : _venue_score p.journal = _venue_score q.journal)
    (h0 : 0 ≤ p.influential_citations.getD 0)
    (hle : p.influential_citations.getD 0 ≤ q.influential_citations.getD 0) :
    importance today p ≤ importance today q := by
  have hrec : _recency_score_by_day today p = _recency_score_by_day today q := by
    rw [_recency_score_by_day, _recency_score_by_day, _recency_days, _recency_days, hdate]
  have h0r : (0 : ℝ) ≤ (p.influential_citations.getD 0 : ℝ) := by exact_mod_cast h0
  have hler : ((p.influential_citations.getD 0 : Int) : ℝ) ≤
      ((q.influential_citations.getD 0 : Int) : ℝ) := by exact_mod_cast hle
  have hlog : Real.log (1 + (p.influential_citations.getD 0 : ℝ)) ≤
      Real.log (1 + (q.influential_citations.getD 0 : ℝ)) := by
    apply Real.log_le_log
    · linarith
    · linarith
  rw [importance, importance, hrec, hven]
  have hmul := mul_le_mul_of_nonneg_left hlog (by norm_num : (0 : ℝ) ≤ 3 / 10)
  linarith

/-- Witness for C10: two records sharing year and venue with counts 3 and 5,
all hypotheses discharged at the concrete inputs. -/
theorem C10_importance_monotone_witness :
    importance ⟨2025, 10, 12⟩
        { title := str "t", year := some 2020, journal := some (str "NIPS"),
          influential_citations := some 3 } ≤
      importance ⟨2025, 10, 12⟩
        { title := str "u", year := some 2020, journal := some (str "NIPS"),
          influential_citations := some 5 } :=
  C10_importance_monotone ⟨2025, 10, 12⟩ _ _ (by decide) (by decide) (by decide) (by decide)

/-- Helper: under the freshness mode, `rank_papers` is the stable merge sort
by the freshness key. -/
theorem rank_papers_freshness (today : PyDate) (papers : List PaperMetadata) :
    rank_papers today papers (str "freshness") =
      papers.mergeSort fun p q =>
        decide (_key_freshness today p ≤ _key_freshness today q) := by
  rw [rank_papers]
  rw [if_neg (by decide), if_pos (by decide)]

/-- C8: under the freshness sort, a record with a resolvable effective date
keys strictly before any record without one regardless of citation counts;
among dated records, strictly fewer days since the effective date keys
first; equal day counts are broken by descending influential-citation
count, then by descending venue score; and the ranked output is a
permutation of the input sorted by this key. -/
theorem C8_freshness_order (today : PyDate) :
    (∀ p q : PaperMetadata, (effectiveDate p).isSome = true → effectiveDate q = none →
      _key_freshness today p < _key_freshness today q) ∧
    (∀ p q : PaperMetadata, ∀ a b : Int,
      _recency_days today p = some a → _recency_days today q = some b → a < b →
      _key_freshness today p < _key_freshness today q) ∧
    (∀ p q : PaperMetadata, ∀ a : Int,
      _recency_days today p = some a → _recency_days today q = some a →
      q.influential_citations.getD 0 < p.influential_citations.getD 0 →
      _key_freshness today p < _key_freshness today q) ∧
    (∀ p q : PaperMetadata, ∀ a : Int,
      _recency_days today p = some a → _recency_days today q = some a →
      p.influential_citations.getD 0 = q.influential_citations.getD 0 →
      _venue_score q.journal < _venue_score p.journal →
      _key_freshness today p < _key_freshness today q) ∧
    (∀ l : List PaperMetadata,
      (rank_papers today l (str "freshness")).Perm l ∧
      List.Pairwise (fun a b => _key_freshness today a ≤ _key_freshness today b)
        (rank_papers today l (str "freshness"))) := by
  refine ⟨?_, ?_, ?_, ?_, ?_⟩
  · intro p q hp hq
    have hrdp : (_recency_days today p).isSome = true := by
      rw [_recency_days]; simpa using hp
    have hrdq : _recency_days today q = none := by
      rw [_recency_days, hq]; rfl
    rw [_key_freshness, _key_freshness, hrdq]
    simp only [hrdp, Option.isSome_none, if_true, if_false, Bool.false_eq_true]
    exact (Prod.Lex.lt_iff ..).mpr (Or.inl (by norm_num))
  · intro p q a b ha hb hab
    rw [_key_freshness, _key_freshness, ha, hb]
    simp only [Option.isSome_some, if_true, Option.getD_some]
    refine (Prod.Lex.lt_iff ..).mpr (Or.inr ⟨rfl, ?_⟩)
    exact (Prod.Lex.lt_iff ..).mpr (Or.inl hab)
  · intro p q a ha hb hinfl
    rw [_key_freshness, _key_freshness, ha, hb]
    simp only [Option.isSome_some, if_true, Option.getD_some]
    refine (Prod.Lex.lt_iff ..).mpr (Or.inr ⟨rfl, ?_⟩)
    refine (Prod.Lex.lt_iff ..).mpr (Or.inr ⟨rfl, ?_⟩)
    exact (Prod.Lex.lt_iff ..).mpr (Or.inl (by omega))
  · intro p q a ha hb hinfl hven
    rw [_key_freshness, _key_freshness, ha, hb]
    simp only [Option.isSome_some, if_true, Option.getD_some]
    refine (Prod.Lex.lt_iff ..).mpr (Or.inr ⟨rfl, ?_⟩)
    refine (Prod.Lex.lt_iff ..).mpr (Or.inr ⟨rfl, ?_⟩)
    refine (Prod.Lex.lt_iff ..).mpr (Or.inr ⟨by rw [hinfl], by simpa using hven⟩)
  · intro l
    constructor
    · rw [rank_papers_freshness]
      exact List.mergeSort_perm l _
    · rw [rank_papers_freshness]
      have hp := @List.sorted_mergeSort PaperMetadata
        (fun p q => decide (_key_freshness today p ≤ _key_freshness today q))
        (fun a b c hab hbc =>
          decide_eq_true (le_trans (of_decide_eq_true hab) (of_decide_eq_true hbc)))
        (fun a b => by
          rcases le_total (_key_freshness today a) (_key_freshness today b) with h | h <;>
            simp [h])
        l
      exact hp.imp fun h => of_decide_eq_true h

/-- Witness for C8: with today 2025-10-12, a record dated 2024-01-01 keys
before one dated 2023-01-01 at equal citation counts, and a dated record
keys before an undated one with far more citations; hypotheses discharged
at the concrete inputs. -/
theorem C8_freshness_order_witness :
    _key_freshness ⟨2025, 10, 12⟩
        { title := str "a", publication_date := some (str "2024-01-01"),
          influential_citations := some 7 } <
      _key_freshness ⟨2025, 10, 12⟩
        { title := str "b", publication_date := some (str "2023-01-01"),
          influential_citations := some 7 } ∧
    _key_freshness ⟨2025, 10, 12⟩
        { title := str "a", publication_date := some (str "2024-01-01"),
          influential_citations := some 7 } <
      _key_freshness ⟨2025, 10, 12⟩
        { title := str "c", influential_citations := some 99999 } :=
  ⟨(C8_freshness_order ⟨2025, 10, 12⟩).2.1 _ _ 650 1015 (by decide) (by decide) (by decide),
   (C8_freshness_order ⟨2025, 10, 12⟩).1 _ _ (by decide) (by decide)⟩

/-- An attempt outcome on which the retry loop proceeds to the next attempt:
a retryable status, a timeout, or an unexpected exception before the final
attempt. -/
def retriesAt (a : HttpAttempt α) (i : Nat) : Prop :=
  a = .retryableStatus ∨ a = .timeout ∨ (a = .exc ∧ i < 5)

theorem httpGetLoop_no_ok (env : Nat → HttpAttempt (S2Response α)) :
    ∀ (fuel attempt : Nat),
      (∀ i, attempt ≤ i → i < attempt + fuel → ∀ j, env i ≠ .ok j) →
      httpGetLoop env fuel attempt = emptySentinel := by
  intro fuel
  induction fuel with
  | zero => intro attempt _; rfl
  | succ n ih =>
    intro attempt h
    rw [httpGetLoop]
    cases henv : env attempt with
    | ok j => exact absurd henv (h attempt (Nat.le_refl _) (by omega) j)
    | retryableStatus => exact ih (attempt + 1) fun i h1 h2 => h i (by omega) (by omega)
    | fatalStatus => rfl
    | timeout => exact ih (attempt + 1) fun i h1 h2 => h i (by omega) (by omega)
    | exc =>
      by_cases h5 : 5 ≤ attempt
      · rw [if_pos h5]
      · rw [if_neg h5]
        exact ih (attempt + 1) fun i h1 h2 => h i (by omega) (by omega)

theorem httpGetLoop_fatal (env : Nat → HttpAttempt (S2Response α)) (k : Nat)
    (hk : env k = .fatalStatus) :
    ∀ (fuel attempt : Nat), attempt ≤ k → k < attempt + fuel →
      (∀ i, attempt ≤ i → i < k → retriesAt (env i) i) →
      httpGetLoop env fuel attempt = emptySentinel := by
  intro fuel
  induction fuel with
  | zero => intro attempt h1 h2 _; omega
  | succ n ih =>
    intro attempt h1 h2 hpre
    rw [httpGetLoop]
    by_cases hak : attempt = k
    · subst hak
      rw [hk]
    · have hlt : attempt < k := by omega
      rcases hpre attempt (Nat.le_refl _) hlt with h | h | ⟨h, h5⟩
      · rw [h]
        exact ih (attempt + 1) (by omega) (by omega) fun i hi1 hi2 => hpre i (by omega) hi2
      · rw [h]
        exact ih (attempt + 1) (by omega) (by omega) fun i hi1 hi2 => hpre i (by omega) hi2
      · rw [h, if_neg (by omega)]
        exact ih (attempt + 1) (by omega) (by omega) fun i hi1 hi2 => hpre i (by omega) hi2

theorem aggStep_stats_other (env : SourceEnv) (intent : SearchIntent)
    (q s src : Str) (st : AggState) (hne : s ≠ src) :
    (aggStep env intent q s st).stats src = st.stats src := by
  rw [aggStep]
  cases env s q (st.seen s) with
  | error e => rfl
  | ok v => exact Function.update_noteq (by exact fun h => hne h.symm) _ _

theorem aggStep_stats_failing (env : SourceEnv) (intent : SearchIntent)
    (q src : Str) (st : AggState)
    (hfail : ∀ q2 ks, ∃ msg, env src q2 ks = Except.error msg) :
    (aggStep env intent q src st).stats src = st.stats src := by
  rw [aggStep]
  rcases hfail q (st.seen src) with ⟨msg, hmsg⟩
  rw [hmsg]

theorem aggInnerFold_stats (env : SourceEnv) (intent : SearchIntent) (q src : Str)
    (hfail : ∀ q2 ks, ∃ msg, env src q2 ks = Except.error msg) :
    ∀ (sel : List Str) (st : AggState),
      ((sel.foldl (fun st2 s => aggStep env intent q s st2) st).stats src) = st.stats src := by
  intro sel
  induction sel with
  | nil => intro st; rfl
  | cons s rest ih =>
    intro st
    rw [List.foldl_cons, ih]
    by_cases hs : s = src
    · subst hs; exact aggStep_stats_failing env intent q s st hfail
    · exact aggStep_stats_other env intent q s src st hs

theorem aggFold_stats (env : SourceEnv) (intent : SearchIntent) (src : Str)
    (hfail : ∀ q2 ks, ∃ msg, env src q2 ks = Except.error msg) :
    ∀ (qs : List Str) (sel : List Str) (st : AggState),
      ((qs.foldl (fun st q => sel.foldl (fun st2 s => aggStep env intent q s st2) st) st).stats
        src) = st.stats src := by
  intro qs
  induction qs with
  | nil => intro sel st; rfl
  | cons q rest ih =>
    intro sel st
    rw [List.foldl_cons, ih, aggInnerFold_stats env intent q src hfail]

/-- C5: the HTTP layer and the adapters degrade instead of raising: the retry
loop returns the explicit zero-total sentinel after its six attempts pass
without a 200, and immediately on a non-retryable status; the OpenAlex
adapter maps any internal failure to an empty record list with zero
raw-fetched/raw-unique counts; and in the aggregation loop of
`search_papers` a source whose every call raises ends with all-zero
accumulated statistics. -/
theorem C5_failure_absorption :
    (∀ env : Nat → HttpAttempt (S2Response Unit),
      (∀ i, i < 6 → ∀ j, env i ≠ .ok j) → _http_get env = emptySentinel) ∧
    (∀ env : Nat → HttpAttempt (S2Response Unit), ∀ k, k < 6 →
      env k = .fatalStatus → (∀ i, i < k → retriesAt (env i) i) →
      _http_get env = emptySentinel) ∧
    (∀ e : Str, ∀ seen : List UKey,
      _search_openalex_single_query (.error e) seen =
        ([], { server_total := some 0, raw_fetched := 0, raw_unique := 0, pages := 0 },
          seen)) ∧
    (∀ env : SourceEnv, ∀ intent : SearchIntent, ∀ src : Str,
      (∀ q ks, ∃ msg, env src q ks = Except.error msg) →
      (search_papers env intent).per_source_stats src =
        { raw_fetched := 0, raw_unique := 0, after_filter := 0, pages := 0 }) := by
  refine ⟨?_, ?_, ?_, ?_⟩
  · intro env h
    exact httpGetLoop_no_ok env 6 0 fun i h1 h2 => h i (by omega)
  · intro env k hk henv hpre
    exact httpGetLoop_fatal env k henv 6 0 (by omega) (by omega) fun i _ h2 => hpre i h2
  · intro e seen
    rfl
  · intro env intent src hfail
    rw [search_papers]
    exact aggFold_stats env intent src hfail _ _ _

/-- Witness for C5: the sentinel on six retryable statuses, the sentinel on
an immediate non-retryable status, the zero-count empty result of a failing
OpenAlex call, and the all-zero accumulated stats of a backend whose every
call raises, at concrete inputs. -/
theorem C5_failure_absorption_witness :
    _http_get (fun _ => (HttpAttempt.retryableStatus : HttpAttempt (S2Response Unit))) =
      emptySentinel ∧
    _http_get (fun _ => (HttpAttempt.fatalStatus : HttpAttempt (S2Response Unit))) =
      emptySentinel ∧
    _search_openalex_single_query (.error (str "boom")) [] =
      ([], { server_total := some 0, raw_fetched := 0, raw_unique := 0, pages := 0 }, []) ∧
    (search_papers (fun _ _ _ => Except.error (str "down"))
        { any_groups := [[str "transformer"]],
          enabled_sources := some [str "s2", str "openalex"] }).per_source_stats
      (str "openalex") =
      { raw_fetched := 0, raw_unique := 0, after_filter := 0, pages := 0 } :=
  ⟨C5_failure_absorption.1 _ (fun i _ j h => HttpAttempt.noConfusion h),
   C5_failure_absorption.2.1 _ 0 (by omega) rfl (fun i hi => absurd hi (by omega)),
   C5_failure_absorption.2.2.1 (str "boom") [],
   C5_failure_absorption.2.2.2 _ _ _ (fun q ks => ⟨str "down", rfl⟩)⟩

/-- C2: the percent calculator realizes the fixed milestones — created 0,
parsing 25, searching 25 plus the floor of 50 times the completed-backend
fraction (25 with no source entries), ranking 75, completed 100, and 0 for
the failed stage — but `fail_task` never recomputes the stored percent: at
the failing input, a task failed while searching at percent 25 still polls
25 although the calculator maps the failed stage to 0; the error list does
gain an entry. -/
theorem C2_percent_milestones_and_failed_percent :
    (∀ sources, _calculate_overall_percent (str "created") sources = 0) ∧
    (∀ sources, _calculate_overall_percent (str "parsing") sources = 25) ∧
    (_calculate_overall_percent (str "searching") [] = 25) ∧
    (∀ sources : List (Str × SourceProgress), sources ≠ [] →
      _calculate_overall_percent (str "searching") sources =
        25 + (((50 * (sources.filter fun e =>
          e.2.status == SourceStatus.completed).length) / sources.length : ℕ) : Int)) ∧
    (∀ sources, _calculate_overall_percent (str "ranking") sources = 75) ∧
    (∀ sources, _calculate_overall_percent (str "completed") sources = 100) ∧
    (∀ sources, _calculate_overall_percent (str "failed") sources = 0) ∧
    ((fail_task 3 (str "Search failed: boom")
        (update_task_status 2 .searching
          (update_task_status 1 .parsing (create_task 0 (str "q"))))).status =
      TaskStatus.failed ∧
     (fail_task 3 (str "Search failed: boom")
        (update_task_status 2 .searching
          (update_task_status 1 .parsing (create_task 0 (str "q"))))).progress.overall_percent =
      25 ∧
     (fail_task 3 (str "Search failed: boom")
        (update_task_status 2 .searching
          (update_task_status 1 .parsing
            (create_task 0 (str "q"))))).errors.length = 1) := by
  refine ⟨fun s => rfl, fun s => rfl, rfl, ?_, fun s => rfl, fun s => rfl, fun s => rfl,
    by decide, by decide, by decide⟩
  intro sources hne
  have h0 : sources.isEmpty = false := by simpa [List.isEmpty_iff] using hne
  rw [_calculate_overall_percent]
  rw [if_neg (by decide), if_neg (by decide), if_pos (by decide),
    if_neg (by simp [h0])]
  show 25 + Int.floor
      (((sources.filter fun e => e.2.status == SourceStatus.completed).length : ℚ) /
        (sources.length : ℚ) * 50) =
    25 + (((50 * (sources.filter fun e =>
      e.2.status == SourceStatus.completed).length) / sources.length : ℕ) : Int)
  congr 1
  have h1 : (((sources.filter fun e => e.2.status == SourceStatus.completed).length : ℚ) /
      (sources.length : ℚ) * 50) =
      (((50 * (sources.filter fun e => e.2.status == SourceStatus.completed).length : ℕ) : ℚ) /
        ((sources.length : ℕ) : ℚ)) := by
    push_cast
    ring
  rw [h1]
  exact Rat.floor_natCast_div_natCast _ _

/-- Witness for C2: two of two sources completed during searching yields
percent 75, through the searching-stage clause of the theorem at a
concrete source map. -/
theorem C2_percent_witness :
    _calculate_overall_percent (str "searching")
      [(str "s2", { status := SourceStatus.completed }),
       (str "openalex", { status := SourceStatus.completed })] = 75 :=
  ((C2_percent_milestones_and_failed_percent).2.2.2.1
    [(str "s2", { status := SourceStatus.completed }),
     (str "openalex", { status := SourceStatus.completed })] (by decide)).trans (by decide)

/-- C1: evaluation at the failing input of the claim.  For every submitted
task whose intent parses and whose max_results is within the ceiling, the
executor marks the task failed and never completed, because its
search_papers call passes the keyword argument progress_callback, which
search_papers (search_multi.py line 1125) does not accept: the TypeError is
caught at the search stage and fail_task runs, appending one error and
storing no results. -/
theorem C1_executor_fails_despite_valid_intent (env : SourceEnv) (today : PyDate)
    (limit now : Int) (intent : SearchIntent) (t0 : TaskState)
    (hmax : intent.max_results ≤ limit) :
    (execute_search_task env today limit now (.ok intent) t0).status = TaskStatus.failed ∧
    (execute_search_task env today limit now (.ok intent) t0).status ≠ TaskStatus.completed ∧
    (execute_search_task env today limit now (.ok intent) t0).results = t0.results ∧
    (execute_search_task env today limit now (.ok intent) t0).errors.length =
      t0.errors.length + 1 := by
  have hte : execute_search_task env today limit now (.ok intent) t0 =
      fail_task now (str "Search failed: unexpected keyword argument progress_callback")
        (update_task_status now .searching (update_task_status now .parsing t0)) := by
    rw [execute_search_task]
    rw [if_neg (by omega), if_neg (by decide)]
  rw [hte]
  refine ⟨rfl, ?_, rfl, ?_⟩
  · intro h
    exact absurd h (by simp [fail_task])
  · simp [fail_task, update_task_status]

/-- Witness for C1: a default intent (max_results 10) under ceiling 50, on a
fresh task, ends failed. -/
theorem C1_executor_fails_witness :
    (execute_search_task (fun _ _ _ => Except.error (str "x")) ⟨2025, 10, 12⟩ 50 0
      (.ok {}) (create_task 0 (str "q"))).status = TaskStatus.failed :=
  (C1_executor_fails_despite_valid_intent (fun _ _ _ => Except.error (str "x"))
    ⟨2025, 10, 12⟩ 50 0 {} (create_task 0 (str "q")) (by decide)).1
